import Mathlib

/-!
Verification of `shapely/geometry/geo.py`: geometry factories based on the
geo interface.  Python values that can appear as coordinate structures or
geo-interface mappings are modelled by the inductive type `PyVal`; the
geometry value objects (whose classes live outside the source shown here) are
modelled from the spec as the inductive type `Geometry`.
-/

/-- A model of the Python values that flow through the module: `None`,
numbers, strings, dicts (association lists) and sequences (list/tuple or a
numpy array, which the code treats alike). -/
inductive PyVal where
  | none : PyVal
  | num (n : Int) : PyVal
  | str (s : String) : PyVal
  | dict (entries : List (String × PyVal)) : PyVal
  | list (elems : List PyVal) : PyVal
deriving Repr

/-- Python exception kinds raised by the code under consideration. -/
inductive PyError where
  | valueError (msg : String) : PyError
  | attributeError (msg : String) : PyError
  | keyError (msg : String) : PyError
  | typeError (msg : String) : PyError
  | indexError (msg : String) : PyError
deriving Repr, DecidableEq

/-- `d.get(k)` / `k in d` / `d[k]` on a Python dict, modelled on the
association list: return the value of the first matching key. -/
def lookupKey : List (String × PyVal) → String → Option PyVal
  | [], _ => Option.none
  | (k, v) :: rest, key => if k = key then Option.some v else lookupKey rest key

/-- Python `str.lower()` on the ASCII geometry-type names: lower-case every
character of the string. -/
def pyLower (s : String) : String :=
  String.mk (s.data.map Char.toLower)

mutual

/-- `_is_coordinates_empty(coordinates)`: `None` is empty; a sequence is
empty when its length is zero or all of its elements are recursively empty;
anything else is not empty. -/
def _is_coordinates_empty : PyVal → Bool
  | PyVal.none => true
  | PyVal.list xs => xs.length == 0 || _all_coordinates_empty xs
  | _ => false

/-- `all(map(_is_coordinates_empty, coordinates))` over the elements of a
sequence. -/
def _all_coordinates_empty : List PyVal → Bool
  | [] => true
  | x :: xs => _is_coordinates_empty x && _all_coordinates_empty xs

end

/-- Modelled from the spec: the seven in-memory geometry value objects
(Point, LineString, Polygon, MultiPoint, MultiLineString, MultiPolygon,
GeometryCollection), whose classes are outside this excerpt.  Coordinates
are numbers; a position is a list of numbers, and each kind nests positions
as in the GeoJSON schema (a polygon is an exterior ring plus interior
rings; a multipolygon is a sequence of GeoJSON-style polygon coordinate
arrays). -/
inductive Geometry where
  | point (coords : List Int) : Geometry
  | lineString (coords : List (List Int)) : Geometry
  | polygon (shell : List (List Int)) (holes : List (List (List Int))) : Geometry
  | multiPoint (coords : List (List Int)) : Geometry
  | multiLineString (coords : List (List (List Int))) : Geometry
  | multiPolygon (polys : List (List (List (List Int)))) : Geometry
  | geometryCollection (geoms : List Geometry) : Geometry
deriving Repr

/-- The lower-case kind name of a geometry value. -/
def kindOf : Geometry → String
  | Geometry.point _ => "point"
  | Geometry.lineString _ => "linestring"
  | Geometry.polygon _ _ => "polygon"
  | Geometry.multiPoint _ => "multipoint"
  | Geometry.multiLineString _ => "multilinestring"
  | Geometry.multiPolygon _ => "multipolygon"
  | Geometry.geometryCollection _ => "geometrycollection"

/-- Whether a geometry value carries no coordinate data at all (the
canonical "empty" instance of its kind). -/
def isEmptyGeom : Geometry → Bool
  | Geometry.point cs => cs.isEmpty
  | Geometry.lineString cs => cs.isEmpty
  | Geometry.polygon sh hs => sh.isEmpty && hs.isEmpty
  | Geometry.multiPoint cs => cs.isEmpty
  | Geometry.multiLineString cs => cs.isEmpty
  | Geometry.multiPolygon ps => ps.isEmpty
  | Geometry.geometryCollection gs => gs.isEmpty

/-- `_empty_shape_for_no_coordinates(geom_type)`: return the empty
counterpart for `geom_type`, raising `ValueError` otherwise.  Exactly the
six branches of the source: there is no `geometrycollection` branch. -/
def _empty_shape_for_no_coordinates (geom_type : String) : Except PyError Geometry :=
  if geom_type = "point" then Except.ok (Geometry.point [])
  else if geom_type = "multipoint" then Except.ok (Geometry.multiPoint [])
  else if geom_type = "linestring" then Except.ok (Geometry.lineString [])
  else if geom_type = "multilinestring" then Except.ok (Geometry.multiLineString [])
  else if geom_type = "polygon" then Except.ok (Geometry.polygon [] [])
  else if geom_type = "multipolygon" then Except.ok (Geometry.multiPolygon [])
  else Except.error (PyError.valueError ("Unknown geometry type: " ++ geom_type))

/-- `box(minx, miny, maxx, maxy, ccw=True)`: a rectangular polygon with
configurable winding order. -/
def box (minx miny maxx maxy : Int) (ccw : Bool := true) : Geometry :=
  let coords := [[maxx, miny], [maxx, maxy], [minx, maxy], [minx, miny]]
  let coords := if ccw then coords else coords.reverse
  Geometry.polygon coords []

/-- Modelled from the spec: the geometry constructors ingest raw coordinate
data.  Parse a Python value as a single number. -/
def pyToNum : PyVal → Option Int
  | PyVal.num n => Option.some n
  | _ => Option.none

/-- Parse every element of a sequence, failing if any element fails. -/
def optMapList {α : Type} (f : PyVal → Option α) : List PyVal → Option (List α)
  | [] => Option.some []
  | x :: xs =>
    match f x, optMapList f xs with
    | Option.some a, Option.some as => Option.some (a :: as)
    | _, _ => Option.none

/-- Modelled from the spec: parse a position (a sequence of numbers), as the
Point constructor expects. -/
def pyToC1 : PyVal → Option (List Int)
  | PyVal.list xs => optMapList pyToNum xs
  | _ => Option.none

/-- Modelled from the spec: parse a sequence of positions (LineString /
MultiPoint coordinates, or one polygon ring). -/
def pyToC2 : PyVal → Option (List (List Int))
  | PyVal.list xs => optMapList pyToC1 xs
  | _ => Option.none

/-- Modelled from the spec: parse a sequence of position-sequences
(MultiLineString coordinates, or the ring list of a polygon). -/
def pyToC3 : PyVal → Option (List (List (List Int)))
  | PyVal.list xs => optMapList pyToC2 xs
  | _ => Option.none

/-- Modelled from the spec: parse GeoJSON-style MultiPolygon coordinates (a
sequence of polygon coordinate arrays). -/
def pyToC4 : PyVal → Option (List (List (List (List Int))))
  | PyVal.list xs => optMapList pyToC3 xs
  | _ => Option.none

/-- Export a position as a Python sequence of numbers. -/
def coordsPy1 (cs : List Int) : PyVal := PyVal.list (cs.map PyVal.num)

/-- Export a sequence of positions. -/
def coordsPy2 (cs : List (List Int)) : PyVal := PyVal.list (cs.map coordsPy1)

/-- Export a sequence of position-sequences. -/
def coordsPy3 (cs : List (List (List Int))) : PyVal := PyVal.list (cs.map coordsPy2)

/-- Export GeoJSON-style MultiPolygon coordinates. -/
def coordsPy4 (cs : List (List (List (List Int)))) : PyVal := PyVal.list (cs.map coordsPy3)

mutual

/-- Modelled from the spec: `__geo_interface__` of a geometry value (the
capability `mapping` reads): a mapping with the GeoJSON type name and the
coordinate tuple-tree, or `geometries` for a collection. -/
def geoInterface : Geometry → PyVal
  | Geometry.point cs =>
      PyVal.dict [("type", PyVal.str "Point"), ("coordinates", coordsPy1 cs)]
  | Geometry.lineString cs =>
      PyVal.dict [("type", PyVal.str "LineString"), ("coordinates", coordsPy2 cs)]
  | Geometry.polygon sh hs =>
      PyVal.dict [("type", PyVal.str "Polygon"),
        ("coordinates", PyVal.list (coordsPy2 sh :: hs.map coordsPy2))]
  | Geometry.multiPoint cs =>
      PyVal.dict [("type", PyVal.str "MultiPoint"), ("coordinates", coordsPy2 cs)]
  | Geometry.multiLineString cs =>
      PyVal.dict [("type", PyVal.str "MultiLineString"), ("coordinates", coordsPy3 cs)]
  | Geometry.multiPolygon ps =>
      PyVal.dict [("type", PyVal.str "MultiPolygon"), ("coordinates", coordsPy4 ps)]
  | Geometry.geometryCollection gs =>
      PyVal.dict [("type", PyVal.str "GeometryCollection"),
        ("geometries", PyVal.list (geoInterfaceList gs))]

/-- The geo-interface mappings of the members of a collection. -/
def geoInterfaceList : List Geometry → List PyVal
  | [] => []
  | g :: gs => geoInterface g :: geoInterfaceList gs

end

/-- `mapping(ob)`: return the geo-interface mapping of the object. -/
def mapping (ob : Geometry) : PyVal := geoInterface ob

/-- Turn an optional parse result into the exception the constructor would
raise on malformed coordinate input. -/
def ofOpt {α : Type} (o : Option α) : Except PyError α :=
  match o with
  | Option.some a => Except.ok a
  | Option.none => Except.error (PyError.valueError "invalid coordinates")

/-- `ob["coordinates"]`: mapping item access, `KeyError` when absent. -/
def getItem (entries : List (String × PyVal)) (k : String) : Except PyError PyVal :=
  match lookupKey entries k with
  | Option.some v => Except.ok v
  | Option.none => Except.error (PyError.keyError k)

mutual

/-- `shape(context)`: construct a geometry from a geo-interface mapping.
The capability resolution step (`hasattr(context, "__geo_interface__")`) is
already done: the argument is the resolved mapping `ob`. -/
def shape (ob : PyVal) : Except PyError Geometry :=
  match ob with
  | PyVal.dict entries =>
    match lookupKey entries "type" with
    | Option.some (PyVal.str t) =>
      let geom_type := pyLower t
      let coordsEmpty :=
        match lookupKey entries "coordinates" with
        | Option.some c => _is_coordinates_empty c
        | Option.none => false
      if coordsEmpty then
        _empty_shape_for_no_coordinates geom_type
      else if geom_type = "point" then do
        let c ← getItem entries "coordinates"
        let cs ← ofOpt (pyToC1 c)
        Except.ok (Geometry.point cs)
      else if geom_type = "linestring" then do
        let c ← getItem entries "coordinates"
        let cs ← ofOpt (pyToC2 c)
        Except.ok (Geometry.lineString cs)
      else if geom_type = "polygon" then do
        let c ← getItem entries "coordinates"
        match c with
        | PyVal.list (x :: rest) => do
          let sh ← ofOpt (pyToC2 x)
          let hs ← ofOpt (optMapList pyToC2 rest)
          Except.ok (Geometry.polygon sh hs)
        | PyVal.list [] => Except.error (PyError.indexError "list index out of range")
        | _ => Except.error (PyError.typeError "object is not subscriptable")
      else if geom_type = "multipoint" then do
        let c ← getItem entries "coordinates"
        let cs ← ofOpt (pyToC2 c)
        Except.ok (Geometry.multiPoint cs)
      else if geom_type = "multilinestring" then do
        let c ← getItem entries "coordinates"
        let cs ← ofOpt (pyToC3 c)
        Except.ok (Geometry.multiLineString cs)
      else if geom_type = "multipolygon" then do
        let c ← getItem entries "coordinates"
        let ps ← ofOpt (pyToC4 c)
        Except.ok (Geometry.multiPolygon ps)
      else if geom_type = "geometrycollection" then
        shapeGC (lookupKey entries "geometries")
      else
        Except.error (PyError.valueError ("Unknown geometry type: " ++ geom_type))
    | _ => Except.error (PyError.attributeError "NoneType object has no attribute lower")
  | _ => Except.error (PyError.attributeError "object has no attribute get")
termination_by sizeOf ob
decreasing_by
  have key : ∀ (es : List (String × PyVal)) (k : String) (v : PyVal),
      lookupKey es k = Option.some v → sizeOf v < sizeOf es := by
    intro es k v hv
    induction es with
    | nil => simp [lookupKey] at hv
    | cons e rest ih =>
      obtain ⟨k', v'⟩ := e
      simp only [lookupKey] at hv
      split at hv
      · cases hv
        simp only [List.cons.sizeOf_spec, Prod.mk.sizeOf_spec]
        omega
      · have := ih hv
        simp only [List.cons.sizeOf_spec, Prod.mk.sizeOf_spec]
        omega
  cases hx : lookupKey entries "geometries" with
  | none =>
    have hpos : 0 < sizeOf entries := by
      cases entries <;> simp only [List.nil.sizeOf_spec, List.cons.sizeOf_spec] <;> omega
    simp only [PyVal.dict.sizeOf_spec, Option.none.sizeOf_spec]
    omega
  | some v =>
    have := key entries "geometries" v hx
    simp only [PyVal.dict.sizeOf_spec, Option.some.sizeOf_spec]
    omega

/-- `ob.get("geometries", [])` feeding the collection recursion: a plain
list yields one geometry per entry, an absent key acts as the empty
sequence, anything else is not iterable. -/
def shapeGC (o : Option PyVal) : Except PyError Geometry :=
  match o with
  | Option.some (PyVal.list gs) => do
    let geoms ← shapeGeoms gs
    Except.ok (Geometry.geometryCollection geoms)
  | Option.none => Except.ok (Geometry.geometryCollection [])
  | Option.some _ => Except.error (PyError.typeError "object is not iterable")
termination_by sizeOf o
decreasing_by
  simp only [Option.some.sizeOf_spec, PyVal.list.sizeOf_spec]
  omega

/-- `[shape(g) for g in ...]`: apply `shape` to each entry of a
`geometries` sequence, propagating the first failure. -/
def shapeGeoms (gs : List PyVal) : Except PyError (List Geometry) :=
  match gs with
  | [] => Except.ok []
  | g :: rest => do
    let x ← shape g
    let xs ← shapeGeoms rest
    Except.ok (x :: xs)
termination_by sizeOf gs
decreasing_by
  · simp only [List.cons.sizeOf_spec]
    omega
  · simp only [List.cons.sizeOf_spec]
    omega

end

mutual

/-- Modelled from the spec: a geometry value is non-empty when the
coordinate tree its geo interface exports is not empty per the detector; a
collection is non-empty when all of its members are. -/
def nonEmptyG : Geometry → Bool
  | Geometry.point cs => !_is_coordinates_empty (coordsPy1 cs)
  | Geometry.lineString cs => !_is_coordinates_empty (coordsPy2 cs)
  | Geometry.polygon sh hs =>
      !_is_coordinates_empty (PyVal.list (coordsPy2 sh :: hs.map coordsPy2))
  | Geometry.multiPoint cs => !_is_coordinates_empty (coordsPy2 cs)
  | Geometry.multiLineString cs => !_is_coordinates_empty (coordsPy3 cs)
  | Geometry.multiPolygon ps => !_is_coordinates_empty (coordsPy4 ps)
  | Geometry.geometryCollection gs => nonEmptyGList gs

/-- All members of a collection are non-empty. -/
def nonEmptyGList : List Geometry → Bool
  | [] => true
  | g :: gs => nonEmptyG g && nonEmptyGList gs

end

theorem all_coordinates_empty_eq (xs : List PyVal) :
    _all_coordinates_empty xs = xs.all _is_coordinates_empty := by
  induction xs with
  | nil => rfl
  | cons x xs ih => simp [_all_coordinates_empty, ih]

theorem optMapList_map {α : Type} (f : PyVal → Option α) (g : α → PyVal)
    (hfg : ∀ a, f (g a) = Option.some a) (l : List α) :
    optMapList f (l.map g) = Option.some l := by
  induction l with
  | nil => rfl
  | cons a as ih => simp [optMapList, hfg, ih]

theorem pyToC1_coordsPy1 (cs : List Int) : pyToC1 (coordsPy1 cs) = Option.some cs := by
  simp [pyToC1, coordsPy1, optMapList_map pyToNum PyVal.num (fun a => rfl)]

theorem pyToC2_coordsPy2 (cs : List (List Int)) : pyToC2 (coordsPy2 cs) = Option.some cs := by
  simp [pyToC2, coordsPy2, optMapList_map pyToC1 coordsPy1 pyToC1_coordsPy1]

theorem pyToC3_coordsPy3 (cs : List (List (List Int))) :
    pyToC3 (coordsPy3 cs) = Option.some cs := by
  simp [pyToC3, coordsPy3, optMapList_map pyToC2 coordsPy2 pyToC2_coordsPy2]

theorem pyToC4_coordsPy4 (cs : List (List (List (List Int)))) :
    pyToC4 (coordsPy4 cs) = Option.some cs := by
  simp [pyToC4, coordsPy4, optMapList_map pyToC3 coordsPy3 pyToC3_coordsPy3]

theorem pyLower_Point : pyLower "Point" = "point" := rfl
theorem pyLower_LineString : pyLower "LineString" = "linestring" := rfl
theorem pyLower_Polygon : pyLower "Polygon" = "polygon" := rfl
theorem pyLower_MultiPoint : pyLower "MultiPoint" = "multipoint" := rfl
theorem pyLower_MultiLineString : pyLower "MultiLineString" = "multilinestring" := rfl
theorem pyLower_MultiPolygon : pyLower "MultiPolygon" = "multipolygon" := rfl
theorem pyLower_GeometryCollection : pyLower "GeometryCollection" = "geometrycollection" := rfl

mutual

theorem shape_geoInterface : ∀ g : Geometry, nonEmptyG g = true →
    shape (geoInterface g) = Except.ok g
  | Geometry.point cs, h => by
    have hc : _is_coordinates_empty (coordsPy1 cs) = false := by
      simpa [nonEmptyG] using h
    simp [geoInterface, shape, lookupKey, pyLower_Point, hc, getItem, ofOpt,
      pyToC1_coordsPy1, bind, Except.bind]
  | Geometry.lineString cs, h => by
    have hc : _is_coordinates_empty (coordsPy2 cs) = false := by
      simpa [nonEmptyG] using h
    simp [geoInterface, shape, lookupKey, pyLower_LineString, hc, getItem, ofOpt,
      pyToC2_coordsPy2, bind, Except.bind]
  | Geometry.polygon sh hs, h => by
    have hc : _is_coordinates_empty (PyVal.list (coordsPy2 sh :: hs.map coordsPy2)) = false := by
      simpa [nonEmptyG] using h
    simp [geoInterface, shape, lookupKey, pyLower_Polygon, hc, getItem, ofOpt,
      pyToC2_coordsPy2, optMapList_map pyToC2 coordsPy2 pyToC2_coordsPy2, bind, Except.bind]
  | Geometry.multiPoint cs, h => by
    have hc : _is_coordinates_empty (coordsPy2 cs) = false := by
      simpa [nonEmptyG] using h
    simp [geoInterface, shape, lookupKey, pyLower_MultiPoint, hc, getItem, ofOpt,
      pyToC2_coordsPy2, bind, Except.bind]
  | Geometry.multiLineString cs, h => by
    have hc : _is_coordinates_empty (coordsPy3 cs) = false := by
      simpa [nonEmptyG] using h
    simp [geoInterface, shape, lookupKey, pyLower_MultiLineString, hc, getItem, ofOpt,
      pyToC3_coordsPy3, bind, Except.bind]
  | Geometry.multiPolygon ps, h => by
    have hc : _is_coordinates_empty (coordsPy4 ps) = false := by
      simpa [nonEmptyG] using h
    simp [geoInterface, shape, lookupKey, pyLower_MultiPolygon, hc, getItem, ofOpt,
      pyToC4_coordsPy4, bind, Except.bind]
  | Geometry.geometryCollection gs, h => by
    have hl : nonEmptyGList gs = true := by simpa [nonEmptyG] using h
    have hrec := shapeGeoms_geoInterfaceList gs hl
    simp [geoInterface, shape, shapeGC, lookupKey, pyLower_GeometryCollection, hrec,
      bind, Except.bind]

theorem shapeGeoms_geoInterfaceList : ∀ gs : List Geometry, nonEmptyGList gs = true →
    shapeGeoms (geoInterfaceList gs) = Except.ok gs
  | [], _ => by simp [geoInterfaceList, shapeGeoms]
  | g :: gs, h => by
    have h1 : nonEmptyG g = true := by
      have := h
      simp [nonEmptyGList, Bool.and_eq_true] at this
      exact this.1
    have h2 : nonEmptyGList gs = true := by
      have := h
      simp [nonEmptyGList, Bool.and_eq_true] at this
      exact this.2
    have e1 := shape_geoInterface g h1
    have e2 := shapeGeoms_geoInterfaceList gs h2
    simp [geoInterfaceList, shapeGeoms, e1, e2, bind, Except.bind]

end

theorem except_bind_ok {α β : Type} (f : α → β) (r : Except PyError α) :
    (Except.bind r fun x => Except.ok (f x)) = Except.map f r := by
  cases r <;> rfl

/-- C1 counterexample: the seventh recognized kind name, `geometrycollection`,
is not handled by `_empty_shape_for_no_coordinates`: it raises the
unknown-geometry-type `ValueError` instead of returning an empty
GeometryCollection. -/
theorem C1_counterexample :
    _empty_shape_for_no_coordinates "geometrycollection"
      = Except.error (PyError.valueError "Unknown geometry type: geometrycollection") := rfl

/-- C1 (amended): for each of the six kind names that have a branch in
`_empty_shape_for_no_coordinates` (all recognized kinds except
`geometrycollection`), the function returns a geometry whose kind equals the
name and whose coordinate data is empty. -/
theorem C1_empty_shape_recognized_kinds : ∀ k : String,
    k ∈ ["point", "linestring", "polygon", "multipoint", "multilinestring", "multipolygon"] →
    ∃ g : Geometry, _empty_shape_for_no_coordinates k = Except.ok g
      ∧ kindOf g = k ∧ isEmptyGeom g = true := by
  intro k hk
  fin_cases hk <;> exact ⟨_, rfl, rfl, rfl⟩

/-- C1 witness: the amended statement instantiated at `point`. -/
theorem C1_witness :
    ∃ g : Geometry, _empty_shape_for_no_coordinates "point" = Except.ok g
      ∧ kindOf g = "point" ∧ isEmptyGeom g = true :=
  C1_empty_shape_recognized_kinds "point" (by simp)

/-- C2: whenever the mapping has a `coordinates` key whose value is empty per
`_is_coordinates_empty`, `shape` returns exactly
`_empty_shape_for_no_coordinates` of the lower-cased `type` value, before any
type-specific handling. -/
theorem C2_shape_empty_short_circuit : ∀ (entries : List (String × PyVal)) (t : String) (c : PyVal),
    lookupKey entries "type" = Option.some (PyVal.str t) →
    lookupKey entries "coordinates" = Option.some c →
    _is_coordinates_empty c = true →
    shape (PyVal.dict entries) = _empty_shape_for_no_coordinates (pyLower t) := by
  intro entries t c h1 h2 h3
  simp [shape, h1, h2, h3]

/-- C2 witness: a Point mapping with an empty coordinate list takes the
short circuit. -/
theorem C2_witness :
    shape (PyVal.dict [("type", PyVal.str "Point"), ("coordinates", PyVal.list [])])
      = _empty_shape_for_no_coordinates (pyLower "Point") :=
  C2_shape_empty_short_circuit _ "Point" (PyVal.list []) rfl rfl rfl

/-- C3: `_is_coordinates_empty` is total (it is a Lean function) and obeys
the stated rules: `None` is empty, a sequence is empty iff every element is
recursively empty (a zero-length sequence being empty), non-sequence scalars
are not empty; including the four concrete test vectors of the spec. -/
theorem C3_is_coordinates_empty_rules :
    _is_coordinates_empty PyVal.none = true
    ∧ (∀ xs : List PyVal, _is_coordinates_empty (PyVal.list xs) = xs.all _is_coordinates_empty)
    ∧ (∀ n : Int, _is_coordinates_empty (PyVal.num n) = false)
    ∧ (∀ s : String, _is_coordinates_empty (PyVal.str s) = false)
    ∧ (∀ es : List (String × PyVal), _is_coordinates_empty (PyVal.dict es) = false)
    ∧ _is_coordinates_empty (PyVal.list []) = true
    ∧ _is_coordinates_empty (PyVal.list [PyVal.list [], PyVal.list []]) = true
    ∧ _is_coordinates_empty (PyVal.list [PyVal.list [PyVal.num 0, PyVal.num 1]]) = false := by
  refine ⟨rfl, ?_, fun n => rfl, fun s => rfl, fun es => rfl, rfl, rfl, rfl⟩
  intro xs
  cases xs with
  | nil => rfl
  | cons x xs => simp [_is_coordinates_empty, all_coordinates_empty_eq]

/-- C4: for every string whose lower-casing is not one of the seven
recognized kind names, `_empty_shape_for_no_coordinates` raises a
`ValueError` carrying the string, and `shape` on a mapping with that type
and non-empty coordinates raises a `ValueError` carrying the lower-cased
string. -/
theorem C4_unknown_type : ∀ (s : String) (c : PyVal),
    pyLower s ∉ ["point", "linestring", "polygon", "multipoint", "multilinestring",
      "multipolygon", "geometrycollection"] →
    _is_coordinates_empty c = false →
    _empty_shape_for_no_coordinates s
        = Except.error (PyError.valueError ("Unknown geometry type: " ++ s))
    ∧ shape (PyVal.dict [("type", PyVal.str s), ("coordinates", c)])
        = Except.error (PyError.valueError ("Unknown geometry type: " ++ pyLower s)) := by
  intro s c hmem hc
  simp only [List.mem_cons, List.mem_singleton, not_or] at hmem
  obtain ⟨n1, n2, n3, n4, n5, n6, n7⟩ := hmem
  constructor
  · have m1 : s ≠ "point" := by intro e; subst e; exact n1 rfl
    have m2 : s ≠ "linestring" := by intro e; subst e; exact n2 rfl
    have m3 : s ≠ "polygon" := by intro e; subst e; exact n3 rfl
    have m4 : s ≠ "multipoint" := by intro e; subst e; exact n4 rfl
    have m5 : s ≠ "multilinestring" := by intro e; subst e; exact n5 rfl
    have m6 : s ≠ "multipolygon" := by intro e; subst e; exact n6 rfl
    simp [_empty_shape_for_no_coordinates, m1, m2, m3, m4, m5, m6]
  · simp [shape, lookupKey, hc, n1, n2, n3, n4, n5, n6, n7]

/-- C4 witness: the unknown name `Foo` produces the two errors. -/
theorem C4_witness :
    _empty_shape_for_no_coordinates "Foo"
        = Except.error (PyError.valueError "Unknown geometry type: Foo")
    ∧ shape (PyVal.dict [("type", PyVal.str "Foo"), ("coordinates", PyVal.num 0)])
        = Except.error (PyError.valueError ("Unknown geometry type: " ++ pyLower "Foo")) :=
  C4_unknown_type "Foo" (PyVal.num 0) (by decide) rfl

/-- C5 counterexample: `_empty_shape_for_no_coordinates` is case-sensitive,
so the claim that it behaves identically on case variants fails: on `POINT`
it raises, on `point` it returns the empty Point. -/
theorem C5_counterexample :
    _empty_shape_for_no_coordinates "POINT"
        = Except.error (PyError.valueError "Unknown geometry type: POINT")
    ∧ _empty_shape_for_no_coordinates "point" = Except.ok (Geometry.point [])
    ∧ _empty_shape_for_no_coordinates "POINT" ≠ _empty_shape_for_no_coordinates "point" := by
  refine ⟨rfl, rfl, ?_⟩
  intro h
  rw [show _empty_shape_for_no_coordinates "POINT"
      = Except.error (PyError.valueError "Unknown geometry type: POINT") from rfl] at h
  rw [show _empty_shape_for_no_coordinates "point" = Except.ok (Geometry.point []) from rfl] at h
  exact Except.noConfusion h

/-- C5 (amended): type-name matching is case-insensitive in `shape` (two
mappings whose `type` strings lower-case equally behave identically), while
`_empty_shape_for_no_coordinates` itself is case-sensitive and recognizes
only the lower-case names it receives from `shape`. -/
theorem C5_shape_case_insensitive : ∀ (rest : List (String × PyVal)) (s t : String),
    pyLower s = pyLower t →
    shape (PyVal.dict (("type", PyVal.str s) :: rest))
      = shape (PyVal.dict (("type", PyVal.str t) :: rest)) := by
  intro rest s t h
  simp [shape, lookupKey, getItem, h]

/-- C5 witness: `Point` and `POINT` mappings construct the same geometry. -/
theorem C5_witness :
    shape (PyVal.dict (("type", PyVal.str "Point")
        :: [("coordinates", PyVal.list [PyVal.num 0, PyVal.num 1])]))
      = shape (PyVal.dict (("type", PyVal.str "POINT")
        :: [("coordinates", PyVal.list [PyVal.num 0, PyVal.num 1])])) :=
  C5_shape_case_insensitive [("coordinates", PyVal.list [PyVal.num 0, PyVal.num 1])]
    "Point" "POINT" rfl

/-- C6: `box` builds the corner sequence bottom-right, top-right, top-left,
bottom-left when `ccw` is true and exactly its reverse when `ccw` is false,
wrapping it in a Polygon, for all numeric bounds without any validation;
including the concrete `box(0,0,2,1)` vectors of the spec. -/
theorem C6_box_corners : ∀ minx miny maxx maxy : Int,
    box minx miny maxx maxy true
      = Geometry.polygon [[maxx, miny], [maxx, maxy], [minx, maxy], [minx, miny]] []
    ∧ box minx miny maxx maxy false
      = Geometry.polygon ([[maxx, miny], [maxx, maxy], [minx, maxy], [minx, miny]].reverse) []
    ∧ box 0 0 2 1 true = Geometry.polygon [[2, 0], [2, 1], [0, 1], [0, 0]] []
    ∧ box 0 0 2 1 false = Geometry.polygon [[0, 0], [0, 1], [2, 1], [2, 0]] [] := by
  intro minx miny maxx maxy
  exact ⟨rfl, rfl, rfl, rfl⟩

/-- C7: on a mapping whose lower-cased type is `geometrycollection` and
whose `coordinates` value (if any) is non-empty, `shape` returns a
GeometryCollection built by applying `shape` recursively to each entry of
the `geometries` sequence (`shapeGeoms`), defaulting to the empty sequence
when the key is absent. -/
theorem C7_geometrycollection : ∀ (entries : List (String × PyVal)) (t : String),
    lookupKey entries "type" = Option.some (PyVal.str t) →
    pyLower t = "geometrycollection" →
    (∀ c, lookupKey entries "coordinates" = Option.some c → _is_coordinates_empty c = false) →
    (∀ gs, lookupKey entries "geometries" = Option.some (PyVal.list gs) →
        shape (PyVal.dict entries) = Except.map Geometry.geometryCollection (shapeGeoms gs))
    ∧ (lookupKey entries "geometries" = Option.none →
        shape (PyVal.dict entries) = Except.ok (Geometry.geometryCollection [])) := by
  intro entries t h1 h2 h3
  constructor
  · intro gs hg
    cases hcoord : lookupKey entries "coordinates" with
    | none =>
      simp [shape, shapeGC, h1, h2, hcoord, hg, except_bind_ok, bind]
    | some c =>
      have hc := h3 c hcoord
      simp [shape, shapeGC, h1, h2, hcoord, hc, hg, except_bind_ok, bind]
  · intro hg
    cases hcoord : lookupKey entries "coordinates" with
    | none =>
      simp [shape, shapeGC, h1, h2, hcoord, hg]
    | some c =>
      have hc := h3 c hcoord
      simp [shape, shapeGC, h1, h2, hcoord, hc, hg]

/-- C7 witness: a GeometryCollection mapping holding one Point mapping. -/
theorem C7_witness :
    shape (PyVal.dict [("type", PyVal.str "GeometryCollection"),
        ("geometries", PyVal.list [geoInterface (Geometry.point [0, 1])])])
      = Except.map Geometry.geometryCollection
          (shapeGeoms [geoInterface (Geometry.point [0, 1])]) :=
  (C7_geometrycollection
    [("type", PyVal.str "GeometryCollection"),
      ("geometries", PyVal.list [geoInterface (Geometry.point [0, 1])])]
    "GeometryCollection" rfl rfl
    (by intro c h; simp [lookupKey, geoInterface] at h)).1 _ rfl

/-- C8: round-trip: for every supported kind and every non-empty geometry
`g` of that kind, `shape (mapping g)` reconstructs `g` exactly (structural
equality). -/
theorem C8_roundtrip : ∀ g : Geometry, nonEmptyG g = true →
    shape (mapping g) = Except.ok g :=
  fun g h => shape_geoInterface g h

/-- C8 witness: a collection of a Point and a LineString round-trips. -/
theorem C8_witness :
    nonEmptyG (Geometry.geometryCollection [Geometry.point [0, 1],
        Geometry.lineString [[0, 0], [1, 1]]]) = true
    ∧ shape (mapping (Geometry.geometryCollection [Geometry.point [0, 1],
        Geometry.lineString [[0, 0], [1, 1]]]))
      = Except.ok (Geometry.geometryCollection [Geometry.point [0, 1],
        Geometry.lineString [[0, 0], [1, 1]]]) :=
  ⟨rfl, C8_roundtrip _ rfl⟩

/-- C9: when the resolved mapping has no `type` key, `shape` fails with the
attribute-resolution error of calling `.lower()` on `None`, not with the
unknown-geometry-type `ValueError`, and constructs no geometry. -/
theorem C9_missing_type : ∀ entries : List (String × PyVal),
    lookupKey entries "type" = Option.none →
    shape (PyVal.dict entries)
      = Except.error (PyError.attributeError "NoneType object has no attribute lower") := by
  intro entries h
  simp [shape, h]

/-- C9 witness: the empty mapping. -/
theorem C9_witness :
    shape (PyVal.dict [])
      = Except.error (PyError.attributeError "NoneType object has no attribute lower") :=
  C9_missing_type [] rfl

/-- C10: every non-None value that is not a sequence is classified as
non-empty by `_is_coordinates_empty` regardless of content (empty string,
dict, number), so `shape` does not take the empty-geometry short circuit for
such a `coordinates` value: on a Point mapping with coordinates `""` it
fails in the Point constructor rather than returning the empty Point. -/
theorem C10_non_sequence_not_empty :
    (∀ s : String, _is_coordinates_empty (PyVal.str s) = false)
    ∧ (∀ es : List (String × PyVal), _is_coordinates_empty (PyVal.dict es) = false)
    ∧ (∀ n : Int, _is_coordinates_empty (PyVal.num n) = false)
    ∧ shape (PyVal.dict [("type", PyVal.str "Point"), ("coordinates", PyVal.str "")])
        = Except.error (PyError.valueError "invalid coordinates")
    ∧ shape (PyVal.dict [("type", PyVal.str "Point"), ("coordinates", PyVal.str "")])
        ≠ _empty_shape_for_no_coordinates "point" := by
  refine ⟨fun s => rfl, fun es => rfl, fun n => rfl, ?_, ?_⟩
  · simp [shape, lookupKey, pyLower_Point, _is_coordinates_empty, getItem, ofOpt, pyToC1,
      bind, Except.bind]
  · intro h
    rw [show shape (PyVal.dict [("type", PyVal.str "Point"), ("coordinates", PyVal.str "")])
        = Except.error (PyError.valueError "invalid coordinates") from by
      simp [shape, lookupKey, pyLower_Point, _is_coordinates_empty, getItem, ofOpt, pyToC1,
        bind, Except.bind]] at h
    exact Except.noConfusion h
